import Mathlib

/-
Verification of the iam-roles-anywhere CLI core against its natural-language
specification.

The development is a shallow embedding of the Python sources under
src/src/iam_ra_cli/: pure data model (models/__init__.py), the state store
(lib/state.py), the CloudFormation reconciler (lib/cfn.py), and the workflow
layer (workflows/{host,role,init,destroy,migrate}.py).  Python dicts are
modelled as insertion-ordered association lists, `Result` as an inductive
`Res`, and workflow bodies that can raise an uncaught Python exception
(AssertionError / TypeError / AttributeError) return a `PyRes` with an
explicit `Exn` constructor.  External collaborators that the spec places out
of scope (boto3 transports, X.509 generation, SOPS file writing, template
files) are modelled as oracles supplied in small environment records, and
every call into them is recorded in an event trace so that theorems can speak
about ordering and about the arguments that were passed.
-/

namespace IamRa

/-- Association list with string keys, modelling a Python dict
(insertion order preserved; keys are unique in every state the CLI builds). -/
abbrev Dict (α : Type) := List (String × α)

/-- Python `d.get(k)` / `d[k]`: first binding of the key, if any. -/
def Dict.find {α : Type} : Dict α → String → Option α
  | [], _ => none
  | (k, v) :: rest, key => if k = key then some v else Dict.find rest key

/-- Python `k in d`. -/
def Dict.hasKey {α : Type} (d : Dict α) (key : String) : Bool :=
  (Dict.find d key).isSome

/-- Python `d[k] = v`: replace in place when the key exists, append otherwise
(this is exactly CPython's insertion-order semantics). -/
def Dict.set {α : Type} : Dict α → String → α → Dict α
  | [], key, v => [(key, v)]
  | (k, w) :: rest, key, v =>
    if k = key then (k, v) :: rest else (k, w) :: Dict.set rest key v

/-- Python `del d[k]` (removes every binding of the key; in the CLI keys are
unique so at most one binding is removed). -/
def Dict.erase {α : Type} : Dict α → String → Dict α
  | [], _ => []
  | (k, w) :: rest, key =>
    if k = key then Dict.erase rest key else (k, w) :: Dict.erase rest key

-- =========================================================================
-- Data model (src/src/iam_ra_cli/models/__init__.py)
-- =========================================================================

/-- ARN accessor `Arn.resource` (models/__init__.py lines 39-41):
everything after the fifth colon. -/
def Arn.resource (a : String) : String :=
  String.intercalate ":" ((a.splitOn ":").drop 5)

/-- ARN accessor `Arn.resource_id` (models/__init__.py lines 52-59). -/
def Arn.resource_id (a : String) : String :=
  let res := Arn.resource a
  if (res.splitOn "/").length > 1 then
    String.intercalate "/" ((res.splitOn "/").drop 1)
  else if (res.splitOn ":").length > 1 then
    String.intercalate ":" ((res.splitOn ":").drop 1)
  else res

/-- CAMode enum (models/__init__.py lines 62-67). -/
inductive CAMode where
  | selfSigned
  | pcaNew
  | pcaExisting
  deriving DecidableEq, Repr

/-- Bootstrap resources; the source calls this dataclass `Init`
(models/__init__.py lines 70-76).  Renamed to avoid the reserved `Init`
module namespace. -/
structure InitRec where
  stack_name : String
  bucket_arn : String
  kms_key_arn : String
  deriving DecidableEq, Repr

/-- CA record (models/__init__.py lines 79-86). -/
structure CA where
  stack_name : String
  mode : CAMode
  trust_anchor_arn : String
  pca_arn : Option String
  deriving DecidableEq, Repr

/-- Role record (models/__init__.py lines 89-102); `scope` defaults to
"default" at deserialization time. -/
structure Role where
  stack_name : String
  role_arn : String
  profile_arn : String
  policies : List String
  scope : String
  deriving DecidableEq, Repr

/-- Host record (models/__init__.py lines 105-113). -/
structure Host where
  stack_name : String
  hostname : String
  role_name : String
  certificate_secret_arn : String
  private_key_secret_arn : String
  deriving DecidableEq, Repr

/-- K8sCluster record (models/__init__.py lines 116-124). -/
structure K8sCluster where
  name : String
  deriving DecidableEq, Repr

/-- K8sWorkload record (models/__init__.py lines 127-138). -/
structure K8sWorkload where
  name : String
  cluster_name : String
  role_name : String
  k8s_namespace : String
  deriving DecidableEq, Repr

/-- State aggregate (models/__init__.py lines 141-157).  The Python field
`namespace` is spelled `ns` here because `namespace` is a Lean keyword. -/
structure State where
  ns : String
  region : String
  version : String
  init : Option InitRec
  cas : Dict CA
  roles : Dict Role
  hosts : Dict Host
  k8s_clusters : Dict K8sCluster
  k8s_workloads : Dict K8sWorkload
  deriving DecidableEq, Repr

/-- Property `State.is_initialized` (models/__init__.py lines 159-161). -/
def State.is_initialized (s : State) : Bool :=
  s.init.isSome

/-- Property `State.ca` (models/__init__.py lines 163-166): the backward
compatibility accessor returning `self.cas.get("default")`. -/
def State.ca (s : State) : Option CA :=
  Dict.find s.cas "default"

-- =========================================================================
-- Raw JSON shape and (de)serialization
-- =========================================================================

/-- Raw JSON shape of a role entry.  The outer `Option` on `policies` and
`scope` records whether the key is present in the blob; `_from_dict` only
passes present keys to the dataclass constructor, so an absent key falls back
to the dataclass default (`()` and `"default"` respectively,
models/__init__.py lines 101-102, 209-215). -/
structure RawRole where
  stack_name : String
  role_arn : String
  profile_arn : String
  policies : Option (List String)
  scope : Option String
  deriving DecidableEq, Repr

/-- Raw JSON shape of the state blob, i.e. the dict `json.loads` hands to
`State.from_json`.  `ca`'s outer `Option` records key presence and the inner
`Option` records a JSON null value (the code distinguishes both,
models/__init__.py lines 175-180).  For `init` key-absent and null both
deserialize to `None`, so they are conflated into a single `Option`.  Map
keys that are absent deserialize to the dataclass default empty dict and are
conflated with the empty list. -/
structure RawState where
  ns : String
  region : String
  version : String
  init : Option InitRec
  ca : Option (Option CA)
  cas : Option (Dict CA)
  roles : Dict RawRole
  hosts : Dict Host
  k8s_clusters : Dict K8sCluster
  k8s_workloads : Dict K8sWorkload
  deriving DecidableEq, Repr

/-- Deserialization of one role entry by `_from_dict`
(models/__init__.py lines 209-215 applied to the Role dataclass). -/
def Role.fromRaw (r : RawRole) : Role :=
  { stack_name := r.stack_name
    role_arn := r.role_arn
    profile_arn := r.profile_arn
    policies := r.policies.getD []
    scope := r.scope.getD "default" }

/-- `State.from_json` (models/__init__.py lines 171-181): the v1 to v2 lift of
a singular `ca` key into `cas["default"]`, followed by `_from_dict`. -/
def State.from_json (raw : RawState) : State :=
  let cas : Dict CA :=
    match raw.cas with
    | some m => m
    | none =>
      match raw.ca with
      | some (some c) => [("default", c)]
      | some none => []
      | none => []
  { ns := raw.ns
    region := raw.region
    version := raw.version
    init := raw.init
    cas := cas
    roles := raw.roles.map (fun p => (p.1, Role.fromRaw p.2))
    hosts := raw.hosts
    k8s_clusters := raw.k8s_clusters
    k8s_workloads := raw.k8s_workloads }

/-- Serialization of a role by `asdict` inside `State.to_json`: every field is
emitted. -/
def Role.toRaw (r : Role) : RawRole :=
  { stack_name := r.stack_name
    role_arn := r.role_arn
    profile_arn := r.profile_arn
    policies := some r.policies
    scope := some r.scope }

/-- `State.to_json` (models/__init__.py lines 168-169): `asdict` emits every
dataclass field; `ca` is a property, not a field, so the blob has a `cas` key
and no `ca` key. -/
def State.to_json (s : State) : RawState :=
  { ns := s.ns
    region := s.region
    version := s.version
    init := s.init
    ca := none
    cas := some s.cas
    roles := s.roles.map (fun p => (p.1, Role.toRaw p.2))
    hosts := s.hosts
    k8s_clusters := s.k8s_clusters
    k8s_workloads := s.k8s_workloads }

-- =========================================================================
-- Error taxonomy (src/src/iam_ra_cli/lib/errors.py)
-- =========================================================================

/-- Error kinds, one constructor per frozen dataclass in lib/errors.py.
Note that lib/errors.py defines no CA-scope-not-found or
CA-scope-already-exists kind: the only error kinds are the ones below. -/
inductive AppError where
  | notInitialized (ns : String)
  | stackDeploy (stack_name status reason : String)
  | stackDelete (stack_name status reason : String)
  | caKeyNotFound (expected_path : String)
  | caCertNotFound (bucket key : String)
  | roleNotFound (ns role_name : String)
  | roleAlreadyExists (ns role_name : String)
  | roleInUse (role_name : String) (hosts : List String)
  | hostNotFound (ns hostname : String)
  | hostAlreadyExists (ns hostname : String)
  | s3Read (bucket key reason : String)
  | s3Write (bucket key reason : String)
  | ssmRead (parameter_name reason : String)
  | ssmWrite (parameter_name reason : String)
  | secretsManagerRead (secret_arn reason : String)
  | sopsEncrypt (path reason : String)
  | secretsFileExists (path : String)
  | stateLoad (ns reason : String)
  | stateSave (ns reason : String)
  deriving DecidableEq, Repr

/-- Result type (lib/result.py): `Ok(value)` or `Err(error)`.  All errors
are `AppError` values, mirroring the union type aliases of the source. -/
inductive Res (α : Type) where
  | Ok (value : α)
  | Err (error : AppError)
  deriving DecidableEq, Repr

/-- Outcome of running a workflow body under Python semantics: a returned
`Result`, or an uncaught exception (`assert` failure, arity mismatch,
assignment to a read-only property) escaping the workflow. -/
inductive PyRes (α : Type) where
  | Ok (value : α)
  | Err (error : AppError)
  | Exn (msg : String)
  deriving DecidableEq, Repr

/-- Convenience predicate: the outcome is a returned `Ok`. -/
def PyRes.isOk {α : Type} : PyRes α → Bool
  | .Ok _ => true
  | _ => false

/-- Convenience predicate: the outcome is a returned `Err`. -/
def PyRes.isErr {α : Type} : PyRes α → Bool
  | .Err _ => true
  | _ => false

-- =========================================================================
-- State store (src/src/iam_ra_cli/lib/state.py, lib/paths.py,
-- lib/storage/file.py)
-- =========================================================================

/-- SSM parameter name holding the state location
(lib/state.py lines 31-32). -/
def ssm_state_location (ns : String) : String :=
  "/iam-ra/" ++ ns ++ "/state-location"

/-- Cache file path for a namespace (lib/paths.py lines 26-28; the XDG cache
directory itself is irrelevant to the claims and is abbreviated). -/
def state_cache_path (ns : String) : String :=
  "cache/" ++ ns ++ "/state.json"

/-- Lookup in the modelled S3 blob store, keyed by bucket and key. -/
def s3find : List ((String × String) × RawState) → String → String → Option RawState
  | [], _, _ => none
  | (bk, blob) :: rest, bucket, key =>
    if bk = (bucket, key) then some blob else s3find rest bucket key

/-- Write to the modelled S3 blob store (replace or append, like `put_object`). -/
def s3set : List ((String × String) × RawState) → String → String → RawState →
    List ((String × String) × RawState)
  | [], bucket, key, blob => [((bucket, key), blob)]
  | (bk, old) :: rest, bucket, key, blob =>
    if bk = (bucket, key) then (bk, blob) :: rest
    else (bk, old) :: s3set rest bucket key blob

/-- World visible to the state store: the SSM pointer records (parameter name
to the `s3://bucket/key` URI, modelled as the bucket-key pair), the S3 state
blobs (the JSON is modelled by its parsed `RawState`), the local cache files,
and the set of cache paths whose mtime is within the freshness window
(`file.is_fresh`, lib/storage/file.py lines 20-25). -/
structure StateWorld where
  ssm : Dict (String × String)
  s3 : List ((String × String) × RawState)
  cache : Dict RawState
  fresh : List String
  deriving DecidableEq, Repr

/-- `load` (lib/state.py lines 65-110).  Returns the possibly-updated world
together with `Ok none` for an uninitialized namespace, `Ok (some state)` on
success, and `Err` on a genuine load failure.  Both the fresh-cache branch and
the remote branch parse the blob through `State.from_json`. -/
def load (w : StateWorld) (ns : String) (skip_cache : Bool) :
    StateWorld × Res (Option State) :=
  let cache_path := state_cache_path ns
  let cached : Option RawState :=
    if ¬skip_cache ∧ cache_path ∈ w.fresh then Dict.find w.cache cache_path
    else none
  match cached with
  | some raw => (w, .Ok (some (State.from_json raw)))
  | none =>
    match Dict.find w.ssm (ssm_state_location ns) with
    | none => (w, .Ok none)
    | some (bucket, key) =>
      match s3find w.s3 bucket key with
      | none =>
        (w, .Err (.stateLoad ns
          ("State file not found at s3://" ++ bucket ++ "/" ++ key)))
      | some raw =>
        let w2 : StateWorld :=
          { w with cache := Dict.set w.cache cache_path raw
                   fresh := cache_path :: w.fresh }
        (w2, .Ok (some (State.from_json raw)))

/-- Failure injection for the two remote writes `save` performs. -/
structure SaveEnv where
  s3PutFails : Bool
  ssmPutFails : Bool
  deriving DecidableEq, Repr

/-- `save` (lib/state.py lines 113-149): precondition check on `state.init`,
then S3 blob write, then SSM pointer write, then (only after both succeed)
the local cache refresh. -/
def save (w : StateWorld) (env : SaveEnv) (state : State) :
    StateWorld × Res Unit :=
  match state.init with
  | none =>
    (w, .Err (.stateSave state.ns
      "Cannot save state without init (no bucket configured)"))
  | some ini =>
    let bucket := Arn.resource_id ini.bucket_arn
    let key := state.ns ++ "/state.json"
    let data := State.to_json state
    if env.s3PutFails then
      (w, .Err (.stateSave state.ns "Failed to write to S3"))
    else
      let w1 : StateWorld := { w with s3 := s3set w.s3 bucket key data }
      if env.ssmPutFails then
        (w1, .Err (.stateSave state.ns "Failed to update SSM"))
      else
        let w2 : StateWorld :=
          { w1 with ssm := Dict.set w1.ssm (ssm_state_location state.ns) (bucket, key) }
        let cache_path := state_cache_path state.ns
        ({ w2 with cache := Dict.set w2.cache cache_path data
                   fresh := cache_path :: w2.fresh },
         .Ok ())

/-- `invalidate_cache` (lib/state.py lines 152-155): deletes the cache file. -/
def invalidate_cache (w : StateWorld) (ns : String) : StateWorld :=
  { w with cache := Dict.erase w.cache (state_cache_path ns)
           fresh := w.fresh.filter (fun p => p != state_cache_path ns) }

-- =========================================================================
-- CloudFormation reconciler (src/src/iam_ra_cli/lib/cfn.py)
-- =========================================================================

/-- One stack as tracked by the modelled CloudFormation service: its last
observed status, the configuration it currently holds, and its outputs. -/
structure StackRec where
  status : String
  template : String
  parameters : Dict String
  tags : Dict String
  capabilities : List String
  outputs : Dict String
  deriving DecidableEq, Repr

/-- The modelled CloudFormation service state: stack name to record. -/
structure Cfn where
  stackTable : Dict StackRec
  deriving DecidableEq, Repr

/-- Oracle describing how the external CloudFormation control plane converges:
the terminal status a create or an update reaches, the outputs the stack then
publishes, and the failure reason scraped from the event history.  Statuses in
this model are terminal and stable, so the source's sleep-and-poll loop
collapses to a single status inspection. -/
structure CfnEnv where
  createStatus : String → String
  updateStatus : String → String
  deployOutputs : String → Dict String
  failureReason : String → String

/-- `stack_exists` (lib/cfn.py lines 21-32): present and not DELETE_COMPLETE. -/
def stack_exists (c : Cfn) (stack_name : String) : Bool :=
  match Dict.find c.stackTable stack_name with
  | some r => r.status != "DELETE_COMPLETE"
  | none => false

/-- `get_stack_outputs` (lib/cfn.py lines 48-57). -/
def get_stack_outputs (c : Cfn) (stack_name : String) : Dict String :=
  match Dict.find c.stackTable stack_name with
  | some r => r.outputs
  | none => []

/-- External `create_stack` call: the service records the submitted
configuration and converges to the oracle's terminal status. -/
def create_stack (env : CfnEnv) (c : Cfn) (stack_name template : String)
    (parameters tags : Dict String) (capabilities : List String) : Cfn :=
  { stackTable := Dict.set c.stackTable stack_name
      { status := env.createStatus stack_name
        template := template
        parameters := parameters
        tags := tags
        capabilities := capabilities
        outputs := env.deployOutputs stack_name } }

/-- External `update_stack` call.  When the submitted configuration is
identical to the stack's current one the AWS API raises a ClientError whose
text contains "No updates are to be performed"; the returned `some msg` is
that raised error text.  Otherwise the service records the new configuration
and converges to the oracle's terminal status. -/
def update_stack (env : CfnEnv) (c : Cfn) (stack_name template : String)
    (parameters tags : Dict String) (capabilities : List String) :
    Cfn × Option String :=
  match Dict.find c.stackTable stack_name with
  | none => (c, some ("Stack with id " ++ stack_name ++ " does not exist"))
  | some r =>
    if r.template = template ∧ r.parameters = parameters ∧ r.tags = tags ∧
        r.capabilities = capabilities then
      (c, some "No updates are to be performed")
    else
      ({ stackTable := Dict.set c.stackTable stack_name
          { status := env.updateStatus stack_name
            template := template
            parameters := parameters
            tags := tags
            capabilities := capabilities
            outputs := env.deployOutputs stack_name } },
       none)

/-- Terminal failure states (lib/cfn.py lines 136-143). -/
def failed_states : List String :=
  ["CREATE_FAILED", "ROLLBACK_COMPLETE", "ROLLBACK_FAILED",
   "UPDATE_ROLLBACK_COMPLETE", "UPDATE_ROLLBACK_FAILED", "DELETE_FAILED"]

/-- `wait_for_stack` (lib/cfn.py lines 128-168).  Statuses in the model are
stable between polls, so the loop reduces to one inspection: target reached
is Ok, a terminal failure state reports the scraped reason, anything else
would spin until the timeout error. -/
def wait_for_stack (env : CfnEnv) (c : Cfn) (stack_name target_status : String) :
    Res Unit :=
  let status := (Dict.find c.stackTable stack_name).map (fun r => r.status)
  if target_status = "DELETE_COMPLETE" ∧ status = none then .Ok ()
  else if status = some target_status then .Ok ()
  else
    match status with
    | some st =>
      if st ∈ failed_states then
        .Err (.stackDeploy stack_name st (env.failureReason stack_name))
      else
        .Err (.stackDeploy stack_name "TIMEOUT"
          ("Did not reach " ++ target_status ++ " within timeout"))
    | none =>
      .Err (.stackDeploy stack_name "TIMEOUT"
        ("Did not reach " ++ target_status ++ " within timeout"))

/-- `deploy_stack` (lib/cfn.py lines 60-103): create-or-update; a raised
"No updates are to be performed" ClientError is treated as success and the
current outputs are returned; otherwise poll to the targeted terminal status
and return the outputs. -/
def deploy_stack (env : CfnEnv) (c : Cfn) (stack_name template : String)
    (parameters tags : Dict String) (capabilities : List String) :
    Cfn × Res (Dict String) :=
  if stack_exists c stack_name then
    match update_stack env c stack_name template parameters tags capabilities with
    | (c1, some msg) =>
      if msg = "No updates are to be performed" then
        (c1, .Ok (get_stack_outputs c1 stack_name))
      else
        (c1, .Err (.stackDeploy stack_name "FAILED" msg))
    | (c1, none) =>
      match wait_for_stack env c1 stack_name "UPDATE_COMPLETE" with
      | .Ok _ => (c1, .Ok (get_stack_outputs c1 stack_name))
      | .Err e => (c1, .Err e)
  else
    let c1 := create_stack env c stack_name template parameters tags capabilities
    match wait_for_stack env c1 stack_name "CREATE_COMPLETE" with
    | .Ok _ => (c1, .Ok (get_stack_outputs c1 stack_name))
    | .Err e => (c1, .Err e)

-- =========================================================================
-- Workflow layer: events and operation result records
-- =========================================================================

/-- Calls a workflow makes into the operations layer and the state store,
recorded in order with the arguments that were passed. -/
inductive Event where
  | onboardSelfSigned (ns hostname bucket : String) (validity_days : Nat)
  | onboardPca (ns hostname pca_arn bucket : String) (validity_days : Nat)
  | saveState (s : State)
  | secretsFile (hostname cert_arn key_arn trust_anchor profile_arn role_arn :
      String) (overwrite : Bool)
  | offboardHost (stack_name hostname : String)
  | deleteRoleStack (stack_name : String)
  | deleteCaStack (stack_name : String)
  | deleteInitStack (ns : String)
  | cacheInvalidated (ns : String)
  | deployInitStack (ns : String)
  | createSelfSignedCa (ns bucket : String)
  | createPcaCa (ns : String)
  | attachExistingPca (ns pca_arn : String)
  deriving DecidableEq, Repr

/-- HostResult (operations/host.py lines 49-56). -/
structure HostResult where
  stack_name : String
  hostname : String
  certificate_secret_arn : String
  private_key_secret_arn : String
  deriving DecidableEq, Repr

/-- SecretsFileResult (operations/secrets.py lines 19-24). -/
structure SecretsFileResult where
  path : String
  encrypted : Bool
  deriving DecidableEq, Repr

/-- InitResult (operations/infra.py lines 25-32). -/
structure InitOpResult where
  stack_name : String
  bucket_name : String
  bucket_arn : String
  kms_key_arn : String
  deriving DecidableEq, Repr

/-- SelfSignedCAResult (operations/ca.py lines 44-51). -/
structure SelfSignedCAResult where
  stack_name : String
  trust_anchor_arn : String
  cert_s3_key : String
  local_key_path : String
  deriving DecidableEq, Repr

/-- PCAResult (operations/ca.py lines 54-60). -/
structure PCAResult where
  stack_name : String
  trust_anchor_arn : String
  pca_arn : String
  deriving DecidableEq, Repr

-- =========================================================================
-- Host onboard workflow (src/src/iam_ra_cli/workflows/host.py)
-- =========================================================================

/-- OnboardConfig (workflows/host.py lines 45-55). -/
structure OnboardConfig where
  ns : String
  hostname : String
  role_name : String
  validity_days : Nat
  create_sops : Bool
  sops_output_path : Option String
  overwrite : Bool
  deriving DecidableEq, Repr

/-- OnboardResult (workflows/host.py lines 58-63). -/
structure OnboardResult where
  host : Host
  secrets_file : Option SecretsFileResult
  deriving DecidableEq, Repr

/-- Oracle outcomes for the external steps of `onboard`:
`operations.host.onboard_host_self_signed` (certificate generation plus host
stack deploy) and `operations.secrets.create_secrets_file` (whose SOPS helper
module is not part of the excerpt and which the spec treats as an external
collaborator), plus the failure flags of the two remote writes in `save`. -/
structure OnboardEnv where
  selfSigned : Res HostResult
  secrets : Res SecretsFileResult
  saveEnv : SaveEnv

/-- `onboard` (workflows/host.py lines 66-172).  The body mirrors the source
statement by statement.  Note the two load-bearing facts of this workflow:
the CA is taken from the property `state.ca`, i.e. `cas["default"]`, with a
bare `assert state.ca is not None` (line 90), and `role.scope` is never read;
the trust-anchor ARN handed to the secrets file is
`state.ca.trust_anchor_arn` (line 159). -/
def onboard (w : StateWorld) (env : OnboardEnv) (config : OnboardConfig) :
    StateWorld × List Event × PyRes OnboardResult :=
  match load w config.ns false with
  | (w1, .Err e) => (w1, [], .Err e)
  | (w1, .Ok none) => (w1, [], .Err (.notInitialized config.ns))
  | (w1, .Ok (some state)) =>
    if ¬state.is_initialized then (w1, [], .Err (.notInitialized config.ns))
    else
      match state.init with
      | none => (w1, [], .Exn "AssertionError")
      | some ini =>
        match State.ca state with
        | none => (w1, [], .Exn "AssertionError")
        | some ca =>
          match Dict.find state.roles config.role_name with
          | none => (w1, [], .Err (.roleNotFound config.ns config.role_name))
          | some role =>
            if Dict.hasKey state.hosts config.hostname ∧ ¬config.overwrite then
              (w1, [], .Err (.hostAlreadyExists config.ns config.hostname))
            else
              let bucket := Arn.resource_id ini.bucket_arn
              match ca.mode with
              | .selfSigned =>
                let ev1 := [Event.onboardSelfSigned config.ns config.hostname
                  bucket config.validity_days]
                match env.selfSigned with
                | .Err e => (w1, ev1, .Err e)
                | .Ok host_result =>
                  let new_host : Host :=
                    { stack_name := host_result.stack_name
                      hostname := config.hostname
                      role_name := config.role_name
                      certificate_secret_arn := host_result.certificate_secret_arn
                      private_key_secret_arn := host_result.private_key_secret_arn }
                  let state2 :=
                    { state with
                        hosts := Dict.set state.hosts config.hostname new_host }
                  let ev2 := ev1 ++ [Event.saveState state2]
                  match save w1 env.saveEnv state2 with
                  | (w2, .Err e) => (w2, ev2, .Err e)
                  | (w2, .Ok _) =>
                    if config.create_sops then
                      let ev3 := ev2 ++ [Event.secretsFile config.hostname
                        host_result.certificate_secret_arn
                        host_result.private_key_secret_arn
                        ca.trust_anchor_arn role.profile_arn role.role_arn
                        config.overwrite]
                      match env.secrets with
                      | .Err e => (w2, ev3, .Err e)
                      | .Ok sr =>
                        (w2, ev3, .Ok { host := new_host, secrets_file := some sr })
                    else
                      (w2, ev2, .Ok { host := new_host, secrets_file := none })
              | .pcaNew =>
                match ca.pca_arn with
                | none => (w1, [], .Exn "AssertionError")
                | some pca =>
                  let ev1 := [Event.onboardPca config.ns config.hostname pca
                    bucket config.validity_days]
                  -- operations.host.onboard_host_pca (operations/host.py
                  -- lines 140-155) unconditionally returns this error.
                  (w1, ev1, .Err (.stackDeploy "" "NOT_IMPLEMENTED"
                    "PCA certificate issuance not yet implemented"))
              | .pcaExisting =>
                match ca.pca_arn with
                | none => (w1, [], .Exn "AssertionError")
                | some pca =>
                  let ev1 := [Event.onboardPca config.ns config.hostname pca
                    bucket config.validity_days]
                  (w1, ev1, .Err (.stackDeploy "" "NOT_IMPLEMENTED"
                    "PCA certificate issuance not yet implemented"))

-- =========================================================================
-- Role create workflow (src/src/iam_ra_cli/workflows/role.py)
-- =========================================================================

/-- `create_role` workflow (workflows/role.py lines 31-83).  After the
initialization checks the source executes
`create_role_op(ctx, namespace, name, policies, session_duration)`
(line 61); `operations.role.create_role` declares `trust_anchor_arn` as a
required keyword-only parameter (operations/role.py lines 40-41) which this
call omits, so Python raises
`TypeError: create_role() missing 1 required keyword-only argument` before
any stack deploy is attempted.  No CA-scope precondition is checked anywhere
in this workflow, and lib/errors.py defines no scope-not-found error kind. -/
def create_role (w : StateWorld) (ns name : String) (policies : List String)
    (session_duration : Nat) : StateWorld × List Event × PyRes Role :=
  match load w ns false with
  | (w1, .Err e) => (w1, [], .Err e)
  | (w1, .Ok none) => (w1, [], .Err (.notInitialized ns))
  | (w1, .Ok (some state)) =>
    if ¬state.is_initialized then (w1, [], .Err (.notInitialized ns))
    else (w1, [], .Exn "TypeError")

-- =========================================================================
-- Init workflow (src/src/iam_ra_cli/workflows/init.py)
-- =========================================================================

/-- InitConfig (workflows/init.py lines 22-29). -/
structure InitConfig where
  ns : String
  ca_mode : CAMode
  pca_arn : Option String
  ca_validity_years : Nat
  deriving DecidableEq, Repr

/-- Oracle outcomes for the operations `init` calls:
`operations.infra.deploy_init` and the three v1 CA creation operations of
operations/ca.py, plus the save failure flags. -/
structure InitEnv where
  deployInit : Res InitOpResult
  selfSignedCa : Res SelfSignedCAResult
  pcaCa : Res PCAResult
  existingPca : Res PCAResult
  saveEnv : SaveEnv

/-- `init` workflow (workflows/init.py lines 32-116).  `region` is
`ctx.region` and `version` is the package `__version__` (whose module is not
part of the excerpt); both are opaque strings here.  In every CA-mode branch
the source assigns `new_state.ca = CA(...)` (lines 75, 86, 102), but
`State.ca` is a read-only property (models/__init__.py lines 163-166), so
the assignment raises `AttributeError` before the state is ever saved. -/
def init (w : StateWorld) (env : InitEnv) (region version : String)
    (config : InitConfig) : StateWorld × List Event × PyRes State :=
  match env.deployInit with
  | .Err e => (w, [Event.deployInitStack config.ns], .Err e)
  | .Ok init_result =>
    let new_state : State :=
      { ns := config.ns
        region := region
        version := version
        init := some
          { stack_name := init_result.stack_name
            bucket_arn := init_result.bucket_arn
            kms_key_arn := init_result.kms_key_arn }
        cas := []
        roles := []
        hosts := []
        k8s_clusters := []
        k8s_workloads := [] }
    let ev1 := [Event.deployInitStack config.ns]
    match config.ca_mode with
    | .selfSigned =>
      let ev2 := ev1 ++ [Event.createSelfSignedCa config.ns init_result.bucket_name]
      match env.selfSignedCa with
      | .Err e => (w, ev2, .Err e)
      | .Ok _ =>
        -- new_state.ca = CA(...)  -- read-only property: AttributeError
        (w, ev2, .Exn "AttributeError")
    | .pcaNew =>
      let ev2 := ev1 ++ [Event.createPcaCa config.ns]
      match env.pcaCa with
      | .Err e => (w, ev2, .Err e)
      | .Ok _ => (w, ev2, .Exn "AttributeError")
    | .pcaExisting =>
      match config.pca_arn with
      | none =>
        (w, ev1, .Err (.stackDeploy "" "INVALID_CONFIG"
          "pca_arn required for PCA_EXISTING mode"))
      | some pca =>
        let ev2 := ev1 ++ [Event.attachExistingPca config.ns pca]
        match env.existingPca with
        | .Err e => (w, ev2, .Err e)
        | .Ok _ => (w, ev2, .Exn "AttributeError")

-- =========================================================================
-- Destroy workflow (src/src/iam_ra_cli/workflows/destroy.py)
-- =========================================================================

/-- Oracle outcomes for the four deletion operations `destroy` calls, keyed by
the arguments the source passes them. -/
structure DestroyEnv where
  offboard : String → String → Res Unit
  deleteRole : String → Res Unit
  deleteCa : String → Res Unit
  deleteInit : Res Unit

/-- Loop of destroy step 1 (workflows/destroy.py lines 40-45): offboard each
host in insertion order, returning on the first error. -/
def destroy_hosts (hosts : List (String × Host)) (env : DestroyEnv) :
    List Event × Res Unit :=
  match hosts with
  | [] => ([], .Ok ())
  | (hostname, host) :: rest =>
    match env.offboard host.stack_name hostname with
    | .Err e => ([Event.offboardHost host.stack_name hostname], .Err e)
    | .Ok _ =>
      let (evs, r) := destroy_hosts rest env
      (Event.offboardHost host.stack_name hostname :: evs, r)

/-- Loop of destroy step 2 (workflows/destroy.py lines 48-53): delete each
role stack in insertion order, returning on the first error. -/
def destroy_roles (roles : List (String × Role)) (env : DestroyEnv) :
    List Event × Res Unit :=
  match roles with
  | [] => ([], .Ok ())
  | (_, role) :: rest =>
    match env.deleteRole role.stack_name with
    | .Err e => ([Event.deleteRoleStack role.stack_name], .Err e)
    | .Ok _ =>
      let (evs, r) := destroy_roles rest env
      (Event.deleteRoleStack role.stack_name :: evs, r)

/-- `destroy` (workflows/destroy.py lines 15-73): hosts, then roles, then the
CA stack `state.ca` (the default-scope CA only: the property returns
`cas.get("default")`; CAs at other scopes are not visited), then the init
stack, then the local cache. -/
def destroy (w : StateWorld) (env : DestroyEnv) (ns : String) :
    StateWorld × List Event × PyRes Unit :=
  match load w ns false with
  | (w1, .Err e) => (w1, [], .Err e)
  | (w1, .Ok none) => (w1, [], .Err (.notInitialized ns))
  | (w1, .Ok (some state)) =>
    match state.init with
    | none => (w1, [], .Err (.notInitialized ns))
    | some _ =>
      match destroy_hosts state.hosts env with
      | (evH, .Err e) => (w1, evH, .Err e)
      | (evH, .Ok _) =>
        match destroy_roles state.roles env with
        | (evR, .Err e) => (w1, evH ++ evR, .Err e)
        | (evR, .Ok _) =>
          let evHR := evH ++ evR
          let afterCa : List Event × Option AppError :=
            match State.ca state with
            | some ca =>
              match env.deleteCa ca.stack_name with
              | .Err e => (evHR ++ [Event.deleteCaStack ca.stack_name], some e)
              | .Ok _ => (evHR ++ [Event.deleteCaStack ca.stack_name], none)
            | none => (evHR, none)
          match afterCa with
          | (evs, some e) => (w1, evs, .Err e)
          | (evs, none) =>
            match env.deleteInit with
            | .Err e => (w1, evs ++ [Event.deleteInitStack ns], .Err e)
            | .Ok _ =>
              (invalidate_cache w1 ns,
               evs ++ [Event.deleteInitStack ns, Event.cacheInvalidated ns],
               .Ok ())

/-- Spec-side description of the deletion sequence, following the spec's
words for the amended claim: every host stack, then every role stack, then
the default-scope CA stack when present, then the init stack; each entry
pairs the recorded call with its oracle outcome. -/
def destroySpecPlan (state : State) (env : DestroyEnv) (ns : String) :
    List (Event × Res Unit) :=
  state.hosts.map
    (fun p => (Event.offboardHost p.2.stack_name p.1, env.offboard p.2.stack_name p.1))
  ++ state.roles.map
    (fun p => (Event.deleteRoleStack p.2.stack_name, env.deleteRole p.2.stack_name))
  ++ (match State.ca state with
      | some ca => [(Event.deleteCaStack ca.stack_name, env.deleteCa ca.stack_name)]
      | none => [])
  ++ [(Event.deleteInitStack ns, env.deleteInit)]

/-- Run a planned sequence of fallible calls: the trace stops at (and
includes) the first failing call, whose error is the overall result. -/
def runSeq : List (Event × Res Unit) → List Event × Res Unit
  | [] => ([], .Ok ())
  | (ev, .Err e) :: _ => ([ev], .Err e)
  | (ev, .Ok _) :: rest =>
    let (evs, r) := runSeq rest
    (ev :: evs, r)

-- =========================================================================
-- Migrate workflow (src/src/iam_ra_cli/workflows/migrate.py,
-- operations/ca.py)
-- =========================================================================

/-- `_ca_cert_s3_key` as defined in operations/ca.py lines 36-37: the v1,
single-parameter, unscoped S3 key. -/
def ca_cert_s3_key (ns : String) : String :=
  ns ++ "/ca/certificate.pem"

/-- `_old_ca_cert_s3_key` (workflows/migrate.py lines 71-73). -/
def old_ca_cert_s3_key (ns : String) : String :=
  ns ++ "/ca/certificate.pem"

/-- MigrateResult (workflows/migrate.py lines 56-63). -/
structure MigrateResult where
  s3_migrated : Bool
  local_key_migrated : Bool
  ca_stack_migrated : Bool
  roles_updated : List String
  deriving DecidableEq, Repr

/-- `migrate` (workflows/migrate.py lines 167-308).  Step 2 evaluates
`new_s3_key = _ca_cert_s3_key(namespace, "default")` (line 203), but the
imported `operations.ca._ca_cert_s3_key` takes a single parameter
(operations/ca.py line 36), so Python raises
`TypeError: _ca_cert_s3_key() takes 1 positional argument but 2 were given`
on every initialized namespace, before any S3 object is read, copied or
deleted. -/
def migrate (w : StateWorld) (ns : String) : StateWorld × PyRes MigrateResult :=
  match load w ns true with
  | (w1, .Err e) => (w1, .Err e)
  | (w1, .Ok none) => (w1, .Err (.notInitialized ns))
  | (w1, .Ok (some state)) =>
    if ¬state.is_initialized then (w1, .Err (.notInitialized ns))
    else (w1, .Exn "TypeError")

-- =========================================================================
-- Concrete fixtures used by the closed theorems and witnesses
-- =========================================================================

/-- Default-scope CA fixture. -/
def caDefault : CA :=
  { stack_name := "iam-ra-test-ca-default"
    mode := .selfSigned
    trust_anchor_arn := "ta-default"
    pca_arn := none }

/-- Cert-manager-scope CA fixture. -/
def caCertManager : CA :=
  { stack_name := "iam-ra-test-ca-cert-manager"
    mode := .selfSigned
    trust_anchor_arn := "ta-certmgr"
    pca_arn := none }

/-- Bootstrap record fixture for namespace "test". -/
def initTest : InitRec :=
  { stack_name := "iam-ra-test-init"
    bucket_arn := "arn:aws:s3:::test-bucket"
    kms_key_arn := "arn:aws:kms:ap-southeast-2:123456789012:key/k1" }

/-- Role fixture named "web", parameterized by its scope. -/
def roleWeb (scope : String) : Role :=
  { stack_name := "iam-ra-test-role-web"
    role_arn := "arn:aws:iam::123456789012:role/web"
    profile_arn := "arn:aws:rolesanywhere:ap-southeast-2:123456789012:profile/p-web"
    policies := []
    scope := scope }

/-- Host fixture for "web1" bound to role "web". -/
def hostWeb1 : Host :=
  { stack_name := "iam-ra-test-host-web1"
    hostname := "web1"
    role_name := "web"
    certificate_secret_arn := "certArn"
    private_key_secret_arn := "keyArn" }

/-- State with CAs at both the default and the cert-manager scope and one
role whose scope is "cert-manager". -/
def stateMulti : State :=
  { ns := "test"
    region := "ap-southeast-2"
    version := "2.0.0"
    init := some initTest
    cas := [("default", caDefault), ("cert-manager", caCertManager)]
    roles := [("web", roleWeb "cert-manager")]
    hosts := []
    k8s_clusters := []
    k8s_workloads := [] }

/-- State whose single role points at scope "longhorn-system", for which no
CA exists (only the default scope has one). -/
def stateMissingScope : State :=
  { stateMulti with
      cas := [("default", caDefault)]
      roles := [("web", roleWeb "longhorn-system")] }

/-- State with both CAs, one role and one onboarded host, for destroy. -/
def stateTwoScopes : State :=
  { stateMulti with hosts := [("web1", hostWeb1)] }

/-- World holding one namespace's pointer record and state blob. -/
def mkWorld (s : State) : StateWorld :=
  { ssm := [(ssm_state_location s.ns, ("test-bucket", s.ns ++ "/state.json"))]
    s3 := [(("test-bucket", s.ns ++ "/state.json"), State.to_json s)]
    cache := []
    fresh := [] }

/-- Successful host-operation outcome fixture. -/
def hostResWeb1 : HostResult :=
  { stack_name := "iam-ra-test-host-web1"
    hostname := "web1"
    certificate_secret_arn := "certArn"
    private_key_secret_arn := "keyArn" }

/-- Onboard environment in which every external step succeeds. -/
def envHostOk : OnboardEnv :=
  { selfSigned := .Ok hostResWeb1
    secrets := .Ok { path := "secrets/hosts/web1/iam-ra.yaml", encrypted := true }
    saveEnv := { s3PutFails := false, ssmPutFails := false } }

/-- Onboard environment whose final secrets-file step fails. -/
def envHostSecretsFail : OnboardEnv :=
  { envHostOk with
      secrets := .Err (.sopsEncrypt "secrets/hosts/web1/iam-ra.yaml"
        "sops binary not found") }

/-- Onboard configuration for host "web1" with role "web". -/
def onboardCfgWeb1 : OnboardConfig :=
  { ns := "test"
    hostname := "web1"
    role_name := "web"
    validity_days := 365
    create_sops := true
    sops_output_path := none
    overwrite := false }

/-- Destroy environment in which every deletion succeeds. -/
def envDestroyOk : DestroyEnv :=
  { offboard := fun _ _ => .Ok ()
    deleteRole := fun _ => .Ok ()
    deleteCa := fun _ => .Ok ()
    deleteInit := .Ok () }

/-- World after loading the two-scope state (the load refreshes the cache). -/
def worldTwoLoaded : StateWorld :=
  (load (mkWorld stateTwoScopes) "test" false).1

/-- Init environment in which every deploy succeeds. -/
def envInitOk : InitEnv :=
  { deployInit := .Ok
      { stack_name := "iam-ra-acme-init"
        bucket_name := "acme-bucket"
        bucket_arn := "arn:aws:s3:::acme-bucket"
        kms_key_arn := "arn:aws:kms:ap-southeast-2:123456789012:key/k2" }
    selfSignedCa := .Ok
      { stack_name := "iam-ra-acme-rootca"
        trust_anchor_arn := "ta-acme"
        cert_s3_key := "acme/ca/certificate.pem"
        local_key_path := "data/acme/ca-private-key.pem" }
    pcaCa := .Ok
      { stack_name := "iam-ra-acme-rootca"
        trust_anchor_arn := "ta-acme"
        pca_arn := "arn:aws:acm-pca:ap-southeast-2:123456789012:certificate-authority/ca1" }
    existingPca := .Ok
      { stack_name := "iam-ra-acme-rootca"
        trust_anchor_arn := "ta-acme"
        pca_arn := "arn:aws:acm-pca:ap-southeast-2:123456789012:certificate-authority/ca1" }
    saveEnv := { s3PutFails := false, ssmPutFails := false } }

/-- Init configuration fixtures, one per CA mode. -/
def cfgInitSelf : InitConfig :=
  { ns := "acme", ca_mode := .selfSigned, pca_arn := none, ca_validity_years := 10 }

/-- Init configuration for the pca-new mode. -/
def cfgInitPcaNew : InitConfig :=
  { cfgInitSelf with ca_mode := .pcaNew }

/-- Init configuration for the pca-existing mode (with a PCA ARN supplied). -/
def cfgInitPcaExisting : InitConfig :=
  { cfgInitSelf with
      ca_mode := .pcaExisting
      pca_arn := some "arn:aws:acm-pca:ap-southeast-2:123456789012:certificate-authority/ca1" }

/-- CloudFormation oracle for the idempotence witness: converging deploys. -/
def cfnEnvTest : CfnEnv :=
  { createStatus := fun _ => "CREATE_COMPLETE"
    updateStatus := fun _ => "UPDATE_COMPLETE"
    deployOutputs := fun _ => [("TrustAnchorArn", "ta-1")]
    failureReason := fun _ => "Unknown failure reason" }

/-- Raw role entry with no `scope` key and no `policies` key. -/
def rawRoleAdmin : RawRole :=
  { stack_name := "iam-ra-test-role-admin"
    role_arn := "arn:aws:iam::123456789012:role/admin"
    profile_arn := "arn:aws:rolesanywhere:ap-southeast-2:123456789012:profile/p-admin"
    policies := none
    scope := none }

/-- Raw v1 state blob built around the scope-less admin role. -/
def rawV1 : RawState :=
  { ns := "test"
    region := "ap-southeast-2"
    version := "0.1.0"
    init := some initTest
    ca := some (some caDefault)
    cas := none
    roles := [("admin", rawRoleAdmin)]
    hosts := []
    k8s_clusters := []
    k8s_workloads := [] }

/-- Raw blob with a singular null `ca` and no `cas`. -/
def rawV1NullCa : RawState :=
  { rawV1 with ca := some none, roles := [] }

/-- Raw v2-shaped blob that already has a `cas` key. -/
def rawV2 : RawState :=
  { rawV1 with
      ca := none
      cas := some [("default", caDefault), ("cert-manager", caCertManager)] }

/-- World whose cache for namespace "test" is fresh and holds the v1 blob. -/
def worldFreshV1 : StateWorld :=
  { ssm := []
    s3 := []
    cache := [(state_cache_path "test", rawV1)]
    fresh := [state_cache_path "test"] }

/-- World with no cache whose remote side holds the v1 blob. -/
def worldRemoteV1 : StateWorld :=
  { ssm := [(ssm_state_location "test", ("test-bucket", "test/state.json"))]
    s3 := [(("test-bucket", "test/state.json"), rawV1)]
    cache := []
    fresh := [] }

/-- State fixture with no bootstrap record, for the save precondition. -/
def stateNoInit : State :=
  { stateMulti with init := none }

-- =========================================================================
-- Helper lemmas
-- =========================================================================

/-- Writing a key then reading it back returns the written value. -/
lemma Dict.find_set_self {α : Type} (d : Dict α) (k : String) (v : α) :
    Dict.find (Dict.set d k v) k = some v := by
  induction d with
  | nil => simp [Dict.set, Dict.find]
  | cons hd tl ih =>
    obtain ⟨k0, v0⟩ := hd
    by_cases h : k0 = k
    · simp [Dict.set, Dict.find, h]
    · simp [Dict.set, Dict.find, h, ih]

/-- Writing a blob then reading the same bucket and key returns the blob. -/
lemma s3find_s3set_self (l : List ((String × String) × RawState))
    (bucket key : String) (blob : RawState) :
    s3find (s3set l bucket key blob) bucket key = some blob := by
  induction l with
  | nil => simp [s3set, s3find]
  | cons hd tl ih =>
    obtain ⟨bk, old⟩ := hd
    by_cases h : bk = (bucket, key)
    · simp [s3set, s3find, h]
    · simp [s3set, s3find, h, ih]

/-- Running a concatenated plan: the second part runs only when the first
part finishes without error. -/
lemma runSeq_append (xs ys : List (Event × Res Unit)) :
    runSeq (xs ++ ys) =
      match runSeq xs with
      | (evs, .Err e) => (evs, .Err e)
      | (evs, .Ok _) => (evs ++ (runSeq ys).1, (runSeq ys).2) := by
  induction xs with
  | nil => simp [runSeq]
  | cons hd tl ih =>
    obtain ⟨ev, r⟩ := hd
    cases r with
    | Err e => simp [runSeq]
    | Ok u =>
      simp only [List.cons_append, runSeq, ih]
      cases h : runSeq tl with
      | mk evs r2 =>
        rw [h] at ih
        cases r2 <;> simp [ih, h]

/-- The host-offboarding loop is the run of its planned call sequence. -/
lemma destroy_hosts_eq_runSeq (hosts : List (String × Host)) (env : DestroyEnv) :
    destroy_hosts hosts env =
      runSeq (hosts.map
        (fun p => (Event.offboardHost p.2.stack_name p.1,
                   env.offboard p.2.stack_name p.1))) := by
  induction hosts with
  | nil => simp [destroy_hosts, runSeq]
  | cons hd tl ih =>
    obtain ⟨hostname, host⟩ := hd
    cases h : env.offboard host.stack_name hostname with
    | Err e => simp [destroy_hosts, runSeq, h]
    | Ok u => simp [destroy_hosts, runSeq, h, ih]

/-- The role-deletion loop is the run of its planned call sequence. -/
lemma destroy_roles_eq_runSeq (roles : List (String × Role)) (env : DestroyEnv) :
    destroy_roles roles env =
      runSeq (roles.map
        (fun p => (Event.deleteRoleStack p.2.stack_name,
                   env.deleteRole p.2.stack_name))) := by
  induction roles with
  | nil => simp [destroy_roles, runSeq]
  | cons hd tl ih =>
    obtain ⟨name, role⟩ := hd
    cases h : env.deleteRole role.stack_name with
    | Err e => simp [destroy_roles, runSeq, h]
    | Ok u => simp [destroy_roles, runSeq, h, ih]

-- =========================================================================
-- Claim theorems
-- =========================================================================

/-- C1: contrary to the claim, the host-onboard workflow resolves the CA from
`cas["default"]` and never from `cas[role.scope]`: on a state where the
onboarded role has scope "cert-manager" and CAs exist at both scopes, the
secrets artifact receives the default scope's trust anchor "ta-default" and
not the cert-manager trust anchor "ta-certmgr"; and on a state where the
role's scope ("longhorn-system") has no CA entry at all, onboard succeeds
with Ok instead of returning a scope-not-found error value. -/
theorem onboard_ignores_role_scope :
    Event.secretsFile "web1" "certArn" "keyArn" "ta-default"
        "arn:aws:rolesanywhere:ap-southeast-2:123456789012:profile/p-web"
        "arn:aws:iam::123456789012:role/web" false
      ∈ (onboard (mkWorld stateMulti) envHostOk onboardCfgWeb1).2.1
    ∧ Event.secretsFile "web1" "certArn" "keyArn" "ta-certmgr"
        "arn:aws:rolesanywhere:ap-southeast-2:123456789012:profile/p-web"
        "arn:aws:iam::123456789012:role/web" false
      ∉ (onboard (mkWorld stateMulti) envHostOk onboardCfgWeb1).2.1
    ∧ Dict.find stateMulti.cas "cert-manager" = some caCertManager
    ∧ (Dict.find stateMulti.roles "web").map Role.scope = some "cert-manager"
    ∧ Dict.find stateMissingScope.cas "longhorn-system" = none
    ∧ (onboard (mkWorld stateMissingScope) envHostOk onboardCfgWeb1).2.2.isOk = true := by
  decide

/-- C2: contrary to the claim, the migrate workflow never reaches the S3 move:
on an initialized namespace it raises TypeError at
`_ca_cert_s3_key(namespace, "default")` because the imported helper takes a
single parameter, so no first (let alone second, idempotent) run returns Ok. -/
theorem migrate_type_error_on_initialized_namespace :
    (migrate (mkWorld stateMulti) "test").2 = PyRes.Exn "TypeError" := by
  decide

/-- C3: contrary to the claim, the role-create workflow performs no CA-scope
precondition check and never reaches the deploy: on an initialized state
(here with CAs present at two scopes) it raises TypeError because the call to
the operations-layer create_role omits the required trust_anchor_arn keyword
argument; the event trace is empty, so no stack deploy was attempted. -/
theorem create_role_type_error_before_deploy :
    (create_role (mkWorld stateMulti) "test" "myrole" [] 3600).2.2
      = PyRes.Exn "TypeError"
    ∧ (create_role (mkWorld stateMulti) "test" "myrole" [] 3600).2.1 = []
    ∧ (create_role (mkWorld stateMissingScope) "test" "myrole" [] 3600).2.2
      = PyRes.Exn "TypeError" := by
  decide

/-- C4: contrary to the claim, the init workflow never returns Ok: in every
CA mode, after the bootstrap deploy and the CA deploy succeed, the assignment
`new_state.ca = CA(...)` hits the read-only property `State.ca` and raises
AttributeError, so the state is never saved (the event trace ends at the CA
deploy, with no saveState event) and an exception escapes the workflow. -/
theorem init_attribute_error_escapes :
    (init ⟨[], [], [], []⟩ envInitOk "ap-southeast-2" "1.0.0" cfgInitSelf).2.2
      = PyRes.Exn "AttributeError"
    ∧ (init ⟨[], [], [], []⟩ envInitOk "ap-southeast-2" "1.0.0" cfgInitPcaNew).2.2
      = PyRes.Exn "AttributeError"
    ∧ (init ⟨[], [], [], []⟩ envInitOk "ap-southeast-2" "1.0.0" cfgInitPcaExisting).2.2
      = PyRes.Exn "AttributeError"
    ∧ (init ⟨[], [], [], []⟩ envInitOk "ap-southeast-2" "1.0.0" cfgInitSelf).2.1
      = [Event.deployInitStack "acme", Event.createSelfSignedCa "acme" "acme-bucket"] := by
  decide

/-- C5 counterexample: the claim that destroy deletes all per-scope CA stacks
is false at this input: on a state with CAs at both the default and the
cert-manager scope, destroy succeeds while deleting only the default-scope CA
stack; the cert-manager CA stack is never visited. -/
theorem destroy_skips_nondefault_scope_ca :
    (destroy (mkWorld stateTwoScopes) envDestroyOk "test").2.2 = PyRes.Ok ()
    ∧ Event.deleteCaStack "iam-ra-test-ca-default"
      ∈ (destroy (mkWorld stateTwoScopes) envDestroyOk "test").2.1
    ∧ Event.deleteCaStack "iam-ra-test-ca-cert-manager"
      ∉ (destroy (mkWorld stateTwoScopes) envDestroyOk "test").2.1
    ∧ Dict.find stateTwoScopes.cas "cert-manager" = some caCertManager := by
  decide

/-- C8: save on a State whose init field is None returns the state-save error
naming the namespace and performs no write at all: the world (pointer store,
blob store, and local cache) is returned unchanged. -/
theorem save_requires_init (w : StateWorld) (env : SaveEnv) (state : State)
    (h : state.init = none) :
    save w env state =
      (w, .Err (.stateSave state.ns
        "Cannot save state without init (no bucket configured)")) := by
  unfold save
  rw [h]

/-- C8 witness: the precondition failure at a concrete no-init state. -/
theorem save_requires_init_witness :
    stateNoInit.init = none ∧
    save (mkWorld stateMulti) ⟨false, false⟩ stateNoInit =
      (mkWorld stateMulti,
       .Err (.stateSave "test"
         "Cannot save state without init (no bucket configured)")) :=
  ⟨rfl, save_requires_init (mkWorld stateMulti) ⟨false, false⟩ stateNoInit rfl⟩

/-- C10: whenever save returns Err (missing init, S3 write failure, or SSM
pointer write failure), the local cache is left exactly as it was: both the
cache contents and the freshness set of the returned world equal the input
world's. -/
theorem save_failure_preserves_cache (w : StateWorld) (env : SaveEnv)
    (state : State) (e : AppError)
    (h : (save w env state).2 = .Err e) :
    ((save w env state).1).cache = w.cache
    ∧ ((save w env state).1).fresh = w.fresh := by
  unfold save at h ⊢
  cases hinit : state.init with
  | none => simp [hinit]
  | some ini =>
    by_cases h3 : env.s3PutFails
    · simp [hinit, h3]
    · by_cases h4 : env.ssmPutFails
      · simp [hinit, h3, h4]
      · rw [hinit] at h
        simp [h3, h4] at h

/-- C10 witness: a failing S3 write at a concrete input leaves the cache
untouched. -/
theorem save_failure_preserves_cache_witness :
    ((save (mkWorld stateMulti) ⟨true, false⟩ stateMulti).1).cache
      = (mkWorld stateMulti).cache
    ∧ ((save (mkWorld stateMulti) ⟨true, false⟩ stateMulti).1).fresh
      = (mkWorld stateMulti).fresh :=
  save_failure_preserves_cache (mkWorld stateMulti) ⟨true, false⟩ stateMulti
    (.stateSave "test" "Failed to write to S3") (by decide)

/-- C5 amended: destroy deletes stacks in the order every host stack, then
every role stack, then the default-scope CA stack when one is present (CAs at
other scopes are not deleted), then the init stack; the first failing
deletion is returned as the error and aborts all remaining deletions, and the
local cache is invalidated only after a fully successful run. -/
theorem destroy_order_and_abort (w w1 : StateWorld) (env : DestroyEnv)
    (ns : String) (state : State) (ini : InitRec)
    (hload : load w ns false = (w1, .Ok (some state)))
    (hini : state.init = some ini) :
    destroy w env ns =
      match runSeq (destroySpecPlan state env ns) with
      | (evs, .Err e) => (w1, evs, .Err e)
      | (evs, .Ok _) =>
        (invalidate_cache w1 ns, evs ++ [Event.cacheInvalidated ns], .Ok ()) := by
  unfold destroy
  simp only [hload, hini]
  cases hH : destroy_hosts state.hosts env with
  | mk evH rH =>
    rw [destroy_hosts_eq_runSeq] at hH
    cases rH with
    | Err e =>
      simp only [destroySpecPlan, List.append_assoc, runSeq_append, hH]
    | Ok u =>
      cases hR : destroy_roles state.roles env with
      | mk evR rR =>
        rw [destroy_roles_eq_runSeq] at hR
        cases rR with
        | Err e =>
          simp only [destroySpecPlan, List.append_assoc, runSeq_append, hH, hR]
        | Ok u2 =>
          cases hca : State.ca state with
          | none =>
            cases hdi : env.deleteInit with
            | Err e =>
              simp [destroySpecPlan, List.append_assoc, runSeq_append,
                hH, hR, hca, hdi, runSeq]
            | Ok u3 =>
              simp [destroySpecPlan, List.append_assoc, runSeq_append,
                hH, hR, hca, hdi, runSeq]
          | some ca =>
            cases hdc : env.deleteCa ca.stack_name with
            | Err e =>
              simp [destroySpecPlan, List.append_assoc, runSeq_append,
                hH, hR, hca, hdc, runSeq]
            | Ok u3 =>
              cases hdi : env.deleteInit with
              | Err e =>
                simp [destroySpecPlan, List.append_assoc, runSeq_append,
                  hH, hR, hca, hdc, hdi, runSeq]
              | Ok u4 =>
                simp [destroySpecPlan, List.append_assoc, runSeq_append,
                  hH, hR, hca, hdc, hdi, runSeq]

/-- C5 witness: the amended destroy characterization at the concrete
two-scope state with all deletions succeeding. -/
theorem destroy_order_and_abort_witness :
    destroy (mkWorld stateTwoScopes) envDestroyOk "test" =
      match runSeq (destroySpecPlan stateTwoScopes envDestroyOk "test") with
      | (evs, .Err e) => (worldTwoLoaded, evs, .Err e)
      | (evs, .Ok _) =>
        (invalidate_cache worldTwoLoaded "test",
         evs ++ [Event.cacheInvalidated "test"], .Ok ()) :=
  destroy_order_and_abort (mkWorld stateTwoScopes) worldTwoLoaded envDestroyOk
    "test" stateTwoScopes initTest (by decide) (by decide)

/-- Characterization of `update_stack` on an existing stack: identical
configuration raises the no-updates ClientError, otherwise the new
configuration is recorded. -/
lemma update_stack_spec (env : CfnEnv) (c : Cfn) (stack_name template : String)
    (parameters tags : Dict String) (capabilities : List String) (r : StackRec)
    (hfind : Dict.find c.stackTable stack_name = some r) :
    update_stack env c stack_name template parameters tags capabilities =
      if r.template = template ∧ r.parameters = parameters ∧ r.tags = tags ∧
          r.capabilities = capabilities then
        (c, some "No updates are to be performed")
      else
        ({ stackTable := Dict.set c.stackTable stack_name
            { status := env.updateStatus stack_name
              template := template
              parameters := parameters
              tags := tags
              capabilities := capabilities
              outputs := env.deployOutputs stack_name } }, none) := by
  unfold update_stack
  rw [hfind]

/-- Inversion of `stack_exists`: a live record underlies an existing stack. -/
lemma stack_exists_inv (c : Cfn) (stack_name : String)
    (hex : stack_exists c stack_name = true) :
    ∃ r, Dict.find c.stackTable stack_name = some r
      ∧ r.status ≠ "DELETE_COMPLETE" := by
  unfold stack_exists at hex
  cases hf : Dict.find c.stackTable stack_name with
  | none => rw [hf] at hex; simp at hex
  | some r =>
    rw [hf] at hex
    exact ⟨r, rfl, by simpa using hex⟩

/-- Inversion of a successful `wait_for_stack`: the stack record holds the
targeted status. -/
lemma wait_ok_status (env : CfnEnv) (c : Cfn) (stack_name target : String)
    (r : StackRec) (hfind : Dict.find c.stackTable stack_name = some r)
    (hw : wait_for_stack env c stack_name target = .Ok ()) :
    r.status = target := by
  unfold wait_for_stack at hw
  rw [hfind] at hw
  simp only [Option.map_some] at hw
  split at hw
  · next hcond => exact absurd hcond.2 (by simp)
  · split at hw
    · next heq => simpa using heq
    · split at hw <;> first | (split at hw <;> simp_all) | simp_all

/-- Inversion of a successful `deploy_stack`: afterwards the service holds a
live record whose configuration is exactly the requested one and whose
outputs are the returned ones. -/
lemma deploy_stack_ok_inv (env : CfnEnv) (c c2 : Cfn) (stack_name template : String)
    (parameters tags : Dict String) (capabilities : List String) (outs : Dict String)
    (h : deploy_stack env c stack_name template parameters tags capabilities
          = (c2, .Ok outs)) :
    ∃ r, Dict.find c2.stackTable stack_name = some r
      ∧ r.status ≠ "DELETE_COMPLETE"
      ∧ r.template = template ∧ r.parameters = parameters
      ∧ r.tags = tags ∧ r.capabilities = capabilities
      ∧ outs = r.outputs := by
  unfold deploy_stack at h
  by_cases hex : stack_exists c stack_name
  · rw [if_pos hex] at h
    obtain ⟨r, hfind, hstat⟩ := stack_exists_inv c stack_name hex
    rw [update_stack_spec env c stack_name template parameters tags capabilities r hfind] at h
    by_cases hcfg : r.template = template ∧ r.parameters = parameters ∧
        r.tags = tags ∧ r.capabilities = capabilities
    · rw [if_pos hcfg] at h
      simp only [String.reduceEq, reduceIte] at h
      have hc2 : c = c2 := congrArg Prod.fst h
      have houts : get_stack_outputs c stack_name = outs := by
        have h2 := congrArg Prod.snd h
        simpa using h2
      subst hc2
      refine ⟨r, hfind, hstat, hcfg.1, hcfg.2.1, hcfg.2.2.1, hcfg.2.2.2, ?_⟩
      rw [← houts]
      unfold get_stack_outputs
      rw [hfind]
    · rw [if_neg hcfg] at h
      simp only [] at h
      cases hw : wait_for_stack env
          ({ stackTable := Dict.set c.stackTable stack_name
              { status := env.updateStatus stack_name, template := template,
                  parameters := parameters, tags := tags,
                  capabilities := capabilities,
                  outputs := env.deployOutputs stack_name } }) stack_name "UPDATE_COMPLETE" with
      | Err e => rw [hw] at h; simp at h
      | Ok u =>
        cases u
        rw [hw] at h
        have hc2 := congrArg Prod.fst h
        simp only at hc2
        have houts : get_stack_outputs
            ({ stackTable := Dict.set c.stackTable stack_name
                { status := env.updateStatus stack_name, template := template,
                  parameters := parameters, tags := tags,
                  capabilities := capabilities,
                  outputs := env.deployOutputs stack_name } }) stack_name = outs := by
          have h2 := congrArg Prod.snd h
          simpa using h2
        have hfind2 := Dict.find_set_self c.stackTable stack_name
          { status := env.updateStatus stack_name, template := template,
                  parameters := parameters, tags := tags,
                  capabilities := capabilities,
                  outputs := env.deployOutputs stack_name }
        have hst := wait_ok_status env
          ({ stackTable := Dict.set c.stackTable stack_name
              { status := env.updateStatus stack_name, template := template,
                  parameters := parameters, tags := tags,
                  capabilities := capabilities,
                  outputs := env.deployOutputs stack_name } }) stack_name "UPDATE_COMPLETE" _ hfind2 hw
        refine ⟨{ status := env.updateStatus stack_name, template := template,
                  parameters := parameters, tags := tags,
                  capabilities := capabilities,
                  outputs := env.deployOutputs stack_name }, ?_, ?_, rfl, rfl, rfl, rfl, ?_⟩
        · rw [← hc2]; exact hfind2
        · simp only at hst
          simp [hst]
        · rw [← houts]
          unfold get_stack_outputs
          rw [hfind2]
  · rw [if_neg hex] at h
    simp only [create_stack] at h
    cases hw : wait_for_stack env
        ({ stackTable := Dict.set c.stackTable stack_name
            { status := env.createStatus stack_name, template := template,
              parameters := parameters, tags := tags,
              capabilities := capabilities,
              outputs := env.deployOutputs stack_name } }) stack_name "CREATE_COMPLETE" with
    | Err e => rw [hw] at h; simp at h
    | Ok u =>
      cases u
      rw [hw] at h
      have hc2 := congrArg Prod.fst h
      simp only at hc2
      have houts : get_stack_outputs
          ({ stackTable := Dict.set c.stackTable stack_name
              { status := env.createStatus stack_name, template := template,
                parameters := parameters, tags := tags,
                capabilities := capabilities,
                outputs := env.deployOutputs stack_name } }) stack_name = outs := by
        have h2 := congrArg Prod.snd h
        simpa using h2
      have hfind2 := Dict.find_set_self c.stackTable stack_name
        { status := env.createStatus stack_name, template := template,
          parameters := parameters, tags := tags,
          capabilities := capabilities,
          outputs := env.deployOutputs stack_name }
      have hst := wait_ok_status env
        ({ stackTable := Dict.set c.stackTable stack_name
            { status := env.createStatus stack_name, template := template,
              parameters := parameters, tags := tags,
              capabilities := capabilities,
              outputs := env.deployOutputs stack_name } }) stack_name "CREATE_COMPLETE" _ hfind2 hw
      refine ⟨{ status := env.createStatus stack_name, template := template,
                parameters := parameters, tags := tags,
                capabilities := capabilities,
                outputs := env.deployOutputs stack_name }, ?_, ?_, rfl, rfl, rfl, rfl, ?_⟩
      · rw [← hc2]; exact hfind2
      · simp only at hst
        simp [hst]
      · rw [← houts]
        unfold get_stack_outputs
        rw [hfind2]



/-- Deploying a configuration the stack already holds succeeds through the
no-updates branch and returns the current outputs. -/
lemma deploy_stack_no_updates (env : CfnEnv) (c : Cfn) (stack_name template : String)
    (parameters tags : Dict String) (capabilities : List String) (r : StackRec)
    (hfind : Dict.find c.stackTable stack_name = some r)
    (hstat : r.status ≠ "DELETE_COMPLETE")
    (ht : r.template = template) (hp : r.parameters = parameters)
    (htg : r.tags = tags) (hcp : r.capabilities = capabilities) :
    deploy_stack env c stack_name template parameters tags capabilities
      = (c, .Ok r.outputs) := by
  have hex : stack_exists c stack_name = true := by
    unfold stack_exists
    rw [hfind]
    simpa using hstat
  unfold deploy_stack
  rw [if_pos hex,
      update_stack_spec env c stack_name template parameters tags capabilities r hfind,
      if_pos ⟨ht, hp, htg, hcp⟩]
  simp only [String.reduceEq, reduceIte]
  unfold get_stack_outputs
  rw [hfind]

/-- C6: deploy_stack is idempotent: whenever a deploy returns Ok, repeating
it with identical name, template, parameters, tags and capabilities on the
resulting service state never fails; the underlying no-changes-to-perform
response is treated as success carrying the stack's current output map. -/
theorem deploy_stack_idempotent (env : CfnEnv) (c c2 : Cfn)
    (stack_name template : String) (parameters tags : Dict String)
    (capabilities : List String) (outs : Dict String)
    (h : deploy_stack env c stack_name template parameters tags capabilities
          = (c2, .Ok outs)) :
    deploy_stack env c2 stack_name template parameters tags capabilities
      = (c2, .Ok outs) := by
  obtain ⟨r, hfind, hstat, ht, hp, htg, hcp, houts⟩ :=
    deploy_stack_ok_inv env c c2 stack_name template parameters tags capabilities outs h
  rw [houts]
  exact deploy_stack_no_updates env c2 stack_name template parameters tags
    capabilities r hfind hstat ht hp htg hcp

/-- C6 witness: a concrete create followed by an identical deploy. -/
theorem deploy_stack_idempotent_witness :
    deploy_stack cfnEnvTest
        (deploy_stack cfnEnvTest ⟨[]⟩ "stack-a" "tpl" [] [] []).1
        "stack-a" "tpl" [] [] []
      = ((deploy_stack cfnEnvTest ⟨[]⟩ "stack-a" "tpl" [] [] []).1,
         .Ok [("TrustAnchorArn", "ta-1")]) :=
  deploy_stack_idempotent cfnEnvTest ⟨[]⟩
    (deploy_stack cfnEnvTest ⟨[]⟩ "stack-a" "tpl" [] [] []).1
    "stack-a" "tpl" [] [] [] [("TrustAnchorArn", "ta-1")] (by decide)

/-- C7: State.from_json lifts a singular non-null `ca` key (with no `cas`
key) into cas = `{"default": that record}`, maps a null singular `ca` to an
empty cas, reads a blob that already has `cas` as-is, and defaults a role
entry missing its `scope` field to scope "default"; and this normalization
applies on every load of the blob, both through the fresh-cache branch and
through the remote branch. -/
theorem from_json_normalizes (raw : RawState) (c : CA) (m : Dict CA)
    (n : String) (rr : RawRole) (w : StateWorld) (ns b k : String) :
    (raw.ca = some (some c) → raw.cas = none →
      (State.from_json raw).cas = [("default", c)])
    ∧ (raw.ca = some none → raw.cas = none → (State.from_json raw).cas = [])
    ∧ (raw.cas = some m → (State.from_json raw).cas = m)
    ∧ ((n, rr) ∈ raw.roles → rr.scope = none →
        ((n, Role.fromRaw rr) ∈ (State.from_json raw).roles
         ∧ (Role.fromRaw rr).scope = "default"))
    ∧ (state_cache_path ns ∈ w.fresh →
        Dict.find w.cache (state_cache_path ns) = some raw →
        load w ns false = (w, .Ok (some (State.from_json raw))))
    ∧ (state_cache_path ns ∉ w.fresh →
        Dict.find w.ssm (ssm_state_location ns) = some (b, k) →
        s3find w.s3 b k = some raw →
        load w ns false =
          ({ w with cache := Dict.set w.cache (state_cache_path ns) raw
                    fresh := state_cache_path ns :: w.fresh },
           .Ok (some (State.from_json raw)))) := by
  refine ⟨?_, ?_, ?_, ?_, ?_, ?_⟩
  · intro h1 h2
    simp [State.from_json, h1, h2]
  · intro h1 h2
    simp [State.from_json, h1, h2]
  · intro h1
    simp [State.from_json, h1]
  · intro hmem hscope
    constructor
    · simp only [State.from_json]
      exact List.mem_map.mpr ⟨(n, rr), hmem, rfl⟩
    · simp [Role.fromRaw, hscope]
  · intro hfresh hcache
    unfold load
    simp [hfresh, hcache]
  · intro hfresh hssm hs3
    unfold load
    simp [hfresh, hssm, hs3]

/-- C7 witness: the normalization at concrete v1 and v2 blobs, through both
load branches. -/
theorem from_json_normalizes_witness :
    (State.from_json rawV1).cas = [("default", caDefault)]
    ∧ (State.from_json rawV1NullCa).cas = []
    ∧ (State.from_json rawV2).cas
      = [("default", caDefault), ("cert-manager", caCertManager)]
    ∧ (("admin", Role.fromRaw rawRoleAdmin) ∈ (State.from_json rawV1).roles
       ∧ (Role.fromRaw rawRoleAdmin).scope = "default")
    ∧ load worldFreshV1 "test" false
      = (worldFreshV1, .Ok (some (State.from_json rawV1)))
    ∧ load worldRemoteV1 "test" false
      = ({ worldRemoteV1 with
            cache := Dict.set worldRemoteV1.cache (state_cache_path "test") rawV1
            fresh := state_cache_path "test" :: worldRemoteV1.fresh },
         .Ok (some (State.from_json rawV1))) :=
  ⟨(from_json_normalizes rawV1 caDefault [] "admin" rawRoleAdmin worldFreshV1
      "test" "b" "k").1 rfl rfl,
   (from_json_normalizes rawV1NullCa caDefault [] "admin" rawRoleAdmin worldFreshV1
      "test" "b" "k").2.1 rfl rfl,
   (from_json_normalizes rawV2 caDefault
      [("default", caDefault), ("cert-manager", caCertManager)] "admin" rawRoleAdmin
      worldFreshV1 "test" "b" "k").2.2.1 rfl,
   (from_json_normalizes rawV1 caDefault [] "admin" rawRoleAdmin worldFreshV1
      "test" "b" "k").2.2.2.1 (by decide) rfl,
   (from_json_normalizes rawV1 caDefault [] "admin" rawRoleAdmin worldFreshV1
      "test" "b" "k").2.2.2.2.1 (by decide) (by decide),
   (from_json_normalizes rawV1 caDefault [] "admin" rawRoleAdmin worldRemoteV1
      "test" "test-bucket" "test/state.json").2.2.2.2.2 (by decide) (by decide)
      (by decide)⟩

/-- C9: in host onboard with the secrets artifact requested, when every step
up to and including the state save succeeds and the secrets-file step then
fails, the workflow returns that error while the host is durably onboarded:
the persisted blob in the store contains the new Host record under
hosts[hostname]. -/
theorem onboard_secrets_failure_after_save
    (w w1 : StateWorld) (env : OnboardEnv) (config : OnboardConfig)
    (state : State) (ini : InitRec) (ca : CA) (role : Role) (hr : HostResult)
    (e : AppError)
    (hload : load w config.ns false = (w1, .Ok (some state)))
    (hini : state.init = some ini)
    (hca : State.ca state = some ca)
    (hmode : ca.mode = CAMode.selfSigned)
    (hrole : Dict.find state.roles config.role_name = some role)
    (hhost : Dict.hasKey state.hosts config.hostname = false)
    (hsops : config.create_sops = true)
    (hss : env.selfSigned = .Ok hr)
    (hs3 : env.saveEnv.s3PutFails = false)
    (hssm : env.saveEnv.ssmPutFails = false)
    (hsec : env.secrets = .Err e) :
    (onboard w env config).2.2 = .Err e
    ∧ (∃ raw, s3find ((onboard w env config).1).s3
          (Arn.resource_id ini.bucket_arn) (state.ns ++ "/state.json") = some raw
        ∧ Dict.find raw.hosts config.hostname = some
            { stack_name := hr.stack_name
              hostname := config.hostname
              role_name := config.role_name
              certificate_secret_arn := hr.certificate_secret_arn
              private_key_secret_arn := hr.private_key_secret_arn }) := by
  have hinit : state.is_initialized = true := by simp [State.is_initialized, hini]
  unfold onboard
  rw [hload]
  simp only [hinit, hini, hca, hrole, hhost, hmode, hss, hsops, hsec]
  unfold save
  simp only [hini, hs3, hssm]
  simp only [not_true, Bool.false_eq_true, false_and, if_false, reduceIte]
  exact ⟨trivial, _, s3find_s3set_self _ _ _ _,
    by simp [State.to_json, Dict.find_set_self]⟩

/-- C9 witness: the split outcome at a concrete input in which only the SOPS
encryption step fails. -/
theorem onboard_secrets_failure_after_save_witness :
    (onboard (mkWorld stateMulti) envHostSecretsFail onboardCfgWeb1).2.2
      = .Err (.sopsEncrypt "secrets/hosts/web1/iam-ra.yaml" "sops binary not found")
    ∧ (∃ raw, s3find
          ((onboard (mkWorld stateMulti) envHostSecretsFail onboardCfgWeb1).1).s3
          (Arn.resource_id initTest.bucket_arn) (stateMulti.ns ++ "/state.json")
          = some raw
        ∧ Dict.find raw.hosts onboardCfgWeb1.hostname = some
            { stack_name := hostResWeb1.stack_name
              hostname := onboardCfgWeb1.hostname
              role_name := onboardCfgWeb1.role_name
              certificate_secret_arn := hostResWeb1.certificate_secret_arn
              private_key_secret_arn := hostResWeb1.private_key_secret_arn }) :=
  onboard_secrets_failure_after_save (mkWorld stateMulti)
    (load (mkWorld stateMulti) "test" false).1 envHostSecretsFail onboardCfgWeb1
    stateMulti initTest caDefault (roleWeb "cert-manager") hostResWeb1
    (.sopsEncrypt "secrets/hosts/web1/iam-ra.yaml" "sops binary not found")
    (by decide) rfl (by decide) rfl (by decide) (by decide) rfl rfl rfl rfl rfl

end IamRa
